import Mathlib

/-!
Verification of the SensorTag acquisition pipeline
(`src/services/sensor.py` and `src/test.py`) against its
natural-language specification.

Numeric decoding is modelled over `ℚ` (the Python code computes in IEEE
doubles; none of the verified properties exercises a value where the two
differ, and the spec states the formulas over exact arithmetic).
Byte buffers are `List ℕ` with each entry below 256.  Python exceptions
are modelled by the inductive `PyExc`; `struct.unpack` length failures
and sequence indexing failures are the error paths the decode code can
actually take.
-/

namespace SensorTag

/-- Rounding to two decimal places, modelling Python's `round(x, 2)`
(over exact rationals; ties, where Python rounds half-to-even, do not
occur in any verified statement). -/
def round2 (x : ℚ) : ℚ := ((round (100 * x) : ℤ) : ℚ) / 100

/-- Exceptions the modelled Python code can raise.  `decodeError` is the
spec's `DecodeError` (sensor kind and byte count received); the source
never constructs it, which is exactly what claim C2 is about. -/
inductive PyExc where
  | structError (msg : String)
  | indexError (msg : String)
  | btleDisconnect (msg : String)
  | keyboardInterrupt
  | decodeError (kind : String) (nBytes : ℕ)
deriving DecidableEq, Repr

/-- Does an exception belong to the spec's `DecodeError` class? -/
def PyExc.isDecodeErr : PyExc → Bool
  | .decodeError _ _ => true
  | _ => false

/-- Is the exception bluepy's `BTLEDisconnectError` (the disconnect
class caught by the retry loop and by `main`)? -/
def PyExc.isDisconnect : PyExc → Bool
  | .btleDisconnect _ => true
  | _ => false

/-- Python `struct.unpack("<HH", raw)`: two little-endian unsigned
16-bit fields from an exactly 4-byte buffer; any other length raises
`struct.error`. -/
def unpackLE16x2 (raw : List ℕ) : Except PyExc (ℕ × ℕ) :=
  match raw with
  | [b0, b1, b2, b3] => .ok (b0 + 256 * b1, b2 + 256 * b3)
  | _ => .error (.structError "unpack requires a buffer of 4 bytes")

/-- Python `struct.unpack(">H", raw)`: one big-endian unsigned 16-bit
word from an exactly 2-byte buffer. -/
def unpackBE16 (raw : List ℕ) : Except PyExc ℕ :=
  match raw with
  | [b0, b1] => .ok (256 * b0 + b1)
  | _ => .error (.structError "unpack requires a buffer of 2 bytes")

/-- Python `rh_raw & ~0x0003` for the 16-bit value an `unpack "<HH"`
yields (`~0x0003` is the infinite-precision complement, so on a value
below 2^16 it clears the low two status bits). -/
def maskLow2 (x : ℕ) : ℕ := x &&& 0xFFFC

/-- HDC1000 decode from `_read_once` (src/services/sensor.py lines
47-49): `t_raw, rh_raw = struct.unpack("<HH", raw)`, temperature
`(t_raw/65536)*165-40` and humidity `((rh_raw & ~3)/65536)*100`, each
rounded to 2 decimals. -/
def decodeHDC (raw : List ℕ) : Except PyExc (ℚ × ℚ) :=
  match unpackLE16x2 raw with
  | .error e => .error e
  | .ok tr =>
      .ok (round2 ((tr.1 : ℚ) / 65536 * 165 - 40),
           round2 ((maskLow2 tr.2 : ℚ) / 65536 * 100))

/-- BMP280 pressure decode from `_read_once` (src/services/sensor.py
lines 59-61): `p_raw = raw_b[3] | (raw_b[4] << 8) | (raw_b[5] << 16)`,
`round(p_raw / 100.0, 2)`.  Indexing a buffer shorter than 6 bytes
raises `IndexError`; extra trailing bytes are silently ignored. -/
def decodePressureBytes (raw : List ℕ) : Except PyExc ℚ :=
  match raw with
  | _ :: _ :: _ :: b3 :: b4 :: b5 :: _ =>
      .ok (round2 (((b3 ||| b4 <<< 8 ||| b5 <<< 16 : ℕ) : ℚ) / 100))
  | _ => .error (.indexError "index out of range")

/-- OPT3001 luxometer word decode from `_read_once`
(src/services/sensor.py lines 68-71): `exp = (raw_lux & 0xF000) >> 12`,
`mant = raw_lux & 0x0FFF`, `round(mant * (0.01 * 2 ** exp), 2)`. -/
def luxOf (w : ℕ) : ℚ :=
  round2 (((w &&& 0x0FFF : ℕ) : ℚ) * (1 / 100 * 2 ^ ((w &&& 0xF000) >>> 12)))

/-- Full illuminance decode: big-endian unpack then `luxOf`. -/
def decodeLux (raw : List ℕ) : Except PyExc ℚ :=
  match unpackBE16 raw with
  | .error e => .error e
  | .ok w => .ok (luxOf w)

/-- Battery decode from `_read_once` (src/services/sensor.py line 74):
`int(raw[0])`; an empty buffer raises `IndexError`. -/
def decodeBattery (raw : List ℕ) : Except PyExc ℚ :=
  match raw with
  | b :: _ => .ok (b : ℚ)
  | [] => .error (.indexError "index out of range")

/-! ### Arithmetic characterisation of the bit-level decoders -/

theorem lor_shiftLeft_eq_add {a : ℕ} (b : ℕ) {n : ℕ} (ha : a < 2 ^ n) :
    a ||| b <<< n = a + 2 ^ n * b := by
  apply Nat.eq_of_testBit_eq
  intro j
  rw [Nat.add_comm a (2 ^ n * b), Nat.testBit_mul_pow_two_add b ha j]
  rcases Nat.lt_or_ge j n with hj | hj
  · have h1 : ¬ n ≤ j := Nat.not_le_of_lt hj
    simp [Nat.testBit_or, Nat.testBit_shiftLeft, h1, hj]
  · have hfalse : a.testBit j = false := by
      apply Nat.testBit_lt_two_pow
      exact lt_of_lt_of_le ha (Nat.pow_le_pow_right (by norm_num) hj)
    have h2 : ¬ j < n := Nat.not_lt_of_le hj
    simp [Nat.testBit_or, Nat.testBit_shiftLeft, hj, h2, hfalse]

theorem pressureWord_eq (b3 b4 b5 : ℕ) (h3 : b3 < 256) (h4 : b4 < 256) :
    b3 ||| b4 <<< 8 ||| b5 <<< 16 = b3 + 256 * b4 + 65536 * b5 := by
  have e1 : b3 ||| b4 <<< 8 = b3 + 2 ^ 8 * b4 :=
    lor_shiftLeft_eq_add b4 (by exact_mod_cast h3)
  have hlt : b3 + 2 ^ 8 * b4 < 2 ^ 16 := by
    have h := Nat.mul_le_mul_left (2 ^ 8) (Nat.le_of_lt_succ h4)
    omega
  have e2 := lor_shiftLeft_eq_add (a := b3 + 2 ^ 8 * b4) b5 hlt
  rw [e1, e2]
  norm_num

theorem land_fff_eq_mod (w : ℕ) : w &&& 0x0FFF = w % 4096 := by
  have h : (0x0FFF : ℕ) = 2 ^ 12 - 1 := by norm_num
  rw [h, Nat.and_pow_two_sub_one_eq_mod]

theorem exp_field_eq (w : ℕ) : (w &&& 0xF000) >>> 12 = w / 4096 % 16 := by
  have hbits : (w &&& 0xF000) >>> 12 = (w >>> 12) &&& 15 := by
    apply Nat.eq_of_testBit_eq
    intro j
    have h61440 : (0xF000 : ℕ) = 15 <<< 12 := by
      rw [Nat.shiftLeft_eq]
    rw [Nat.testBit_shiftRight, h61440, Nat.testBit_and, Nat.testBit_shiftLeft,
        Nat.testBit_and, Nat.testBit_shiftRight]
    have h12 : 12 ≤ 12 + j := Nat.le_add_right 12 j
    simp [h12, Nat.add_sub_cancel_left]
  have h15 : (w >>> 12) &&& 15 = (w >>> 12) % 16 := by
    have h : (15 : ℕ) = 2 ^ 4 - 1 := by norm_num
    rw [h, Nat.and_pow_two_sub_one_eq_mod]
  rw [hbits, h15, Nat.shiftRight_eq_div_pow]

theorem luxOf_eq (e m : ℕ) (he : e < 16) (hm : m < 4096) :
    luxOf (4096 * e + m) = ((m * 2 ^ e : ℕ) : ℚ) / 100 := by
  have hmod : (4096 * e + m) % 4096 = m := by omega
  have hdiv : (4096 * e + m) / 4096 % 16 = e := by
    have h : (4096 * e + m) / 4096 = e := by omega
    rw [h, Nat.mod_eq_of_lt he]
  unfold luxOf
  rw [land_fff_eq_mod, exp_field_eq, hmod, hdiv]
  unfold round2
  push_cast
  have harg : (100 : ℚ) * ((m : ℚ) * (1 / 100 * 2 ^ e)) = ((m * 2 ^ e : ℕ) : ℚ) := by
    push_cast
    ring
  rw [harg, round_natCast]
  push_cast
  ring

theorem round2_natCast_div_100 (n : ℕ) : round2 ((n : ℚ) / 100) = (n : ℚ) / 100 := by
  unfold round2
  have h : (100 : ℚ) * ((n : ℚ) / 100) = (n : ℚ) := by ring
  rw [h, round_natCast]
  push_cast
  ring

theorem round2_concrete (x : ℚ) (z : ℤ) (h1 : (z : ℚ) ≤ 100 * x + 1 / 2)
    (h2 : 100 * x + 1 / 2 < z + 1) : round2 x = (z : ℚ) / 100 := by
  unfold round2
  rw [round_eq, Int.floor_eq_iff.mpr ⟨h1, h2⟩]

/-! ### Length-mismatch behaviour of the decoders -/

/-- Classifies a decode result as the spec's `DecodeError` class. -/
def resultIsDecodeErr {α : Type} : Except PyExc α → Bool
  | .error e => e.isDecodeErr
  | .ok _ => false

theorem decodeHDC_length_ne (raw : List ℕ) (h : raw.length ≠ 4) :
    decodeHDC raw = .error (.structError "unpack requires a buffer of 4 bytes") := by
  unfold decodeHDC unpackLE16x2
  rcases raw with _ | ⟨a, _ | ⟨b, _ | ⟨c, _ | ⟨d, _ | ⟨e, t⟩⟩⟩⟩⟩ <;> simp_all

theorem decodeLux_length_ne (raw : List ℕ) (h : raw.length ≠ 2) :
    decodeLux raw = .error (.structError "unpack requires a buffer of 2 bytes") := by
  unfold decodeLux unpackBE16
  rcases raw with _ | ⟨a, _ | ⟨b, _ | ⟨c, t⟩⟩⟩ <;> simp_all

theorem decodePressureBytes_short (raw : List ℕ) (h : raw.length < 6) :
    decodePressureBytes raw = .error (.indexError "index out of range") := by
  unfold decodePressureBytes
  rcases raw with _ | ⟨a, _ | ⟨b, _ | ⟨c, _ | ⟨d, _ | ⟨e, _ | ⟨f, t⟩⟩⟩⟩⟩⟩ <;> simp_all
  omega

theorem decodeHDC_never_decodeErr (raw : List ℕ) :
    resultIsDecodeErr (decodeHDC raw) = false := by
  unfold decodeHDC unpackLE16x2
  rcases raw with _ | ⟨a, _ | ⟨b, _ | ⟨c, _ | ⟨d, _ | ⟨e, t⟩⟩⟩⟩⟩ <;> rfl

theorem decodeLux_never_decodeErr (raw : List ℕ) :
    resultIsDecodeErr (decodeLux raw) = false := by
  unfold decodeLux unpackBE16
  rcases raw with _ | ⟨a, _ | ⟨b, _ | ⟨c, t⟩⟩⟩ <;> rfl

theorem decodePressureBytes_never_decodeErr (raw : List ℕ) :
    resultIsDecodeErr (decodePressureBytes raw) = false := by
  unfold decodePressureBytes
  rcases raw with _ | ⟨a, _ | ⟨b, _ | ⟨c, _ | ⟨d, _ | ⟨e, _ | ⟨f, t⟩⟩⟩⟩⟩⟩ <;> rfl

theorem decodeBattery_never_decodeErr (raw : List ℕ) :
    resultIsDecodeErr (decodeBattery raw) = false := by
  unfold decodeBattery
  rcases raw with _ | ⟨a, t⟩ <;> rfl

/-! ### Claims C1, C2, C5, C6 (codec layer) -/

/-- C1: every 4-byte buffer of two little-endian u16 fields (rawTemp
first, rawHumidity second) decodes to temperature
`(rawTemp/65536)*165-40` and humidity `((rawHumidity & ~0b11)/65536)*100`,
each rounded to 2 decimals; in particular `0x00 0x63 0x00 0x30` decodes
to `(23.81, 18.75)`. -/
theorem C1_hdc_decode (b0 b1 b2 b3 : ℕ) :
    decodeHDC [b0, b1, b2, b3]
      = .ok (round2 (((b0 + 256 * b1 : ℕ) : ℚ) / 65536 * 165 - 40),
             round2 (((maskLow2 (b2 + 256 * b3) : ℕ) : ℚ) / 65536 * 100))
    ∧ decodeHDC [0x00, 0x63, 0x00, 0x30]
      = .ok ((2381 : ℚ) / 100, (1875 : ℚ) / 100)
    ∧ (2381 : ℚ) / 100 = round2 (((0x6300 : ℕ) : ℚ) / 65536 * 165 - 40)
    ∧ (1875 : ℚ) / 100 = round2 (((maskLow2 0x3000 : ℕ) : ℚ) / 65536 * 100) := by
  have hm : maskLow2 0x3000 = 12288 := by decide
  have e1 : round2 (((0x6300 : ℕ) : ℚ) / 65536 * 165 - 40) = (2381 : ℚ) / 100 := by
    rw [round2_concrete _ 2381 (by norm_num) (by norm_num)]
    norm_num
  have e2 : round2 (((maskLow2 0x3000 : ℕ) : ℚ) / 65536 * 100) = (1875 : ℚ) / 100 := by
    rw [hm, round2_concrete _ 1875 (by norm_num) (by norm_num)]
    norm_num
  refine ⟨rfl, ?_, e1.symm, e2.symm⟩
  have h0 : decodeHDC [0x00, 0x63, 0x00, 0x30]
      = .ok (round2 (((0x00 + 256 * 0x63 : ℕ) : ℚ) / 65536 * 165 - 40),
             round2 (((maskLow2 (0x00 + 256 * 0x30) : ℕ) : ℚ) / 65536 * 100)) := rfl
  rw [h0]
  simp only [Except.ok.injEq, Prod.mk.injEq]
  constructor
  · have hc : ((0x00 + 256 * 0x63 : ℕ) : ℚ) = ((0x6300 : ℕ) : ℚ) := by norm_num
    rw [hc, e1]
  · have hc : maskLow2 (0x00 + 256 * 0x30) = maskLow2 0x3000 := by norm_num
    rw [hc, e2]

/-- C2 (amended): a raw buffer whose length does not match the expected
layout makes the temperature/humidity and illuminance decodes fail with
`struct.error` (for any length mismatch, longer included) and makes the
pressure decode fail with `IndexError` when shorter than 6 bytes; no
decode ever produces the spec's `DecodeError` (the code has no such
class), and the pressure decode silently accepts buffers longer than its
6-byte layout. -/
theorem C2_length_mismatch (raw : List ℕ) :
    (raw.length ≠ 4 →
      decodeHDC raw = .error (.structError "unpack requires a buffer of 4 bytes"))
    ∧ (raw.length ≠ 2 →
      decodeLux raw = .error (.structError "unpack requires a buffer of 2 bytes"))
    ∧ (raw.length < 6 →
      decodePressureBytes raw = .error (.indexError "index out of range"))
    ∧ (raw = [] → decodeBattery raw = .error (.indexError "index out of range"))
    ∧ resultIsDecodeErr (decodeHDC raw) = false
    ∧ resultIsDecodeErr (decodeLux raw) = false
    ∧ resultIsDecodeErr (decodePressureBytes raw) = false
    ∧ resultIsDecodeErr (decodeBattery raw) = false
    ∧ decodePressureBytes [0, 0, 0, 7, 0, 0, 99] = .ok ((7 : ℚ) / 100) := by
  refine ⟨decodeHDC_length_ne raw, decodeLux_length_ne raw,
    decodePressureBytes_short raw, fun h => by rw [h]; rfl, decodeHDC_never_decodeErr raw,
    decodeLux_never_decodeErr raw, decodePressureBytes_never_decodeErr raw,
    decodeBattery_never_decodeErr raw, ?_⟩
  have hw : (7 ||| 0 <<< 8 ||| 0 <<< 16 : ℕ) = 7 := by decide
  show Except.ok (round2 (((7 ||| 0 <<< 8 ||| 0 <<< 16 : ℕ) : ℚ) / 100)) = _
  rw [hw, round2_natCast_div_100]
  norm_num

/-- Witness for C2: all hypotheses discharged at the empty buffer. -/
theorem C2_length_mismatch_witness :
    decodeHDC [] = .error (.structError "unpack requires a buffer of 4 bytes")
    ∧ decodeLux [] = .error (.structError "unpack requires a buffer of 2 bytes")
    ∧ decodePressureBytes [] = .error (.indexError "index out of range")
    ∧ decodeBattery [] = .error (.indexError "index out of range") :=
  ⟨(C2_length_mismatch []).1 (by decide),
   (C2_length_mismatch []).2.1 (by decide),
   (C2_length_mismatch []).2.2.1 (by decide),
   (C2_length_mismatch []).2.2.2.1 rfl⟩

/-- Counterexample for C2 as stated: a 2-byte buffer fed to the
humidity/temperature decode fails with `struct.error`, not with a
`DecodeError` reporting sensor kind and byte length; a 3-byte buffer
fed to the pressure decode fails with `IndexError`. -/
theorem C2_counterexample :
    decodeHDC [0x00, 0x63] = .error (.structError "unpack requires a buffer of 4 bytes")
    ∧ (PyExc.structError "unpack requires a buffer of 4 bytes").isDecodeErr = false
    ∧ decodePressureBytes [1, 2, 3] = .error (.indexError "index out of range")
    ∧ (PyExc.indexError "index out of range").isDecodeErr = false :=
  ⟨rfl, rfl, rfl, rfl⟩

/-- C5: the illuminance decode (big-endian 16-bit word, top 4 bits
exponent, low 12 bits mantissa) is monotonically non-decreasing in the
mantissa for a fixed exponent and doubles exactly when the exponent
increases by one for a fixed mantissa; the byte-level decode unpacks
the big-endian word and applies the word decode. -/
theorem C5_lux_monotone_doubling (e m mm : ℕ) :
    (e < 16 → m ≤ mm → mm < 4096 →
      luxOf (4096 * e + m) ≤ luxOf (4096 * e + mm))
    ∧ (e + 1 < 16 → m < 4096 →
      luxOf (4096 * (e + 1) + m) = 2 * luxOf (4096 * e + m))
    ∧ (∀ hi lo : ℕ, decodeLux [hi, lo] = .ok (luxOf (256 * hi + lo))) := by
  refine ⟨?_, ?_, fun hi lo => rfl⟩
  · intro he hmm hlt
    rw [luxOf_eq e m he (lt_of_le_of_lt hmm hlt), luxOf_eq e mm he hlt]
    have hle : (m * 2 ^ e : ℕ) ≤ (mm * 2 ^ e : ℕ) :=
      Nat.mul_le_mul_right _ hmm
    have hcast : ((m * 2 ^ e : ℕ) : ℚ) ≤ ((mm * 2 ^ e : ℕ) : ℚ) := by
      exact_mod_cast hle
    linarith
  · intro he1 hm
    rw [luxOf_eq (e + 1) m he1 hm, luxOf_eq e m (by omega) hm]
    push_cast
    ring

/-- Witness for C5 at exponent 1, mantissas 100 and 200. -/
theorem C5_lux_witness :
    luxOf (4096 * 1 + 100) ≤ luxOf (4096 * 1 + 200)
    ∧ luxOf (4096 * (1 + 1) + 100) = 2 * luxOf (4096 * 1 + 100) :=
  ⟨(C5_lux_monotone_doubling 1 100 200).1 (by norm_num) (by norm_num) (by norm_num),
   (C5_lux_monotone_doubling 1 100 200).2.1 (by norm_num) (by norm_num)⟩

/-- C6: on a 6-byte pressure buffer (the expected layout), bytes 3, 4, 5
form the little-endian 24-bit unsigned integer `V` and the decoded
pressure is exactly `V / 100`, which is its own rounding to 2 decimal
places. -/
theorem C6_pressure_decode (b0 b1 b2 b3 b4 b5 : ℕ)
    (h3 : b3 < 256) (h4 : b4 < 256) :
    decodePressureBytes [b0, b1, b2, b3, b4, b5]
      = .ok (((b3 + 256 * b4 + 65536 * b5 : ℕ) : ℚ) / 100)
    ∧ round2 (((b3 + 256 * b4 + 65536 * b5 : ℕ) : ℚ) / 100)
      = ((b3 + 256 * b4 + 65536 * b5 : ℕ) : ℚ) / 100 := by
  constructor
  · show Except.ok (round2 (((b3 ||| b4 <<< 8 ||| b5 <<< 16 : ℕ) : ℚ) / 100)) = _
    rw [pressureWord_eq b3 b4 b5 h3 h4, round2_natCast_div_100]
  · exact round2_natCast_div_100 _

/-- Witness for C6 at the buffer `[1, 2, 3, 0x40, 0x42, 0x0F]`
(`V = 1000000`, 10000 hPa). -/
theorem C6_pressure_witness :
    decodePressureBytes [1, 2, 3, 0x40, 0x42, 0x0F]
      = .ok (((0x40 + 256 * 0x42 + 65536 * 0x0F : ℕ) : ℚ) / 100)
    ∧ round2 (((0x40 + 256 * 0x42 + 65536 * 0x0F : ℕ) : ℚ) / 100)
      = ((0x40 + 256 * 0x42 + 65536 * 0x0F : ℕ) : ℚ) / 100 :=
  C6_pressure_decode 1 2 3 0x40 0x42 0x0F (by norm_num) (by norm_num)

/-! ### Device Session model (src/services/sensor.py)

The BLE boundary is modelled by a `DeviceBehavior` oracle: the outcome
of the connection attempt and of each characteristic write/read the code
performs, in program order.  Time is a tick counter: every BLE operation
and every sleep advances it by one; `now_iso()` reads it without
advancing.  `_read_once` returns the result together with the trace of
completed operations, each paired with its completion tick. -/

inductive Tag where
  | connectT
  | writeT (s : String)
  | sleepT (s : String)
  | readT (s : String)
  | disconnectT
deriving DecidableEq, Repr

/-- Trace event: an operation together with its completion tick. -/
abbrev Ev : Type := Tag × ℕ

/-- Measurement row as built by `_read_once` (before the DataFrame gains
the AssetID / LocationID columns). -/
structure Row where
  sensor : String
  value : ℚ
  unit : String
  dateTime : ℕ
deriving DecidableEq, Repr

/-- Resulting DataFrame of one `_read_once` cycle: the AssetID and
LocationID columns are inserted as whole-column scalars, so they are
batch-wide by construction (src/services/sensor.py lines 81-83). -/
structure Batch where
  assetID : String
  locationID : String
  rows : List Row
deriving DecidableEq, Repr

/-- Outcomes of the BLE operations `_read_once` performs, in program
order.  An `.error` models the operation raising (bluepy disconnect, or
a delivered `KeyboardInterrupt`). -/
structure DeviceBehavior where
  connect : Except PyExc Unit
  humWrite : Except PyExc Unit
  humRead : Except PyExc (List ℕ)
  barWrite : Except PyExc Unit
  barRead : Except PyExc (List ℕ)
  luxWrite : Except PyExc Unit
  luxRead : Except PyExc (List ℕ)
  batRead : Except PyExc (List ℕ)

/-- Python `mac.replace(":", "")`. -/
def stripColons (s : String) : String := ⟨s.data.filter (fun c => c ≠ ':')⟩

/-- Python `s[-6:]`: the last six characters (the whole string when
shorter). -/
def lastSix (s : String) : String := ⟨s.data.drop (s.data.length - 6)⟩

/-- Asset identifier, from src/services/sensor.py line 39 and
src/test.py line 76. -/
def pyAssetId (mac : String) : String :=
  "TI-SensorTag-" ++ lastSix (stripColons mac)

/-- Location identifier (same constant in both files). -/
def locationId : String := "Labor_ColorSorter_Umgebung"

/-- Result of one section of the `_read_once` body: rows produced so
far (or the exception that aborted it), trace, current tick. -/
abbrev SectRes : Type := Except PyExc (List Row) × List Ev × ℕ

/-- Sequencing of body sections: an exception aborts the rest, traces
concatenate, rows append. -/
def seqS (x : SectRes) (f : ℕ → SectRes) : SectRes :=
  match x with
  | (.error e, l, t) => (.error e, l, t)
  | (.ok r1, l1, t1) =>
      match f t1 with
      | (.error e, l2, t2) => (.error e, l1 ++ l2, t2)
      | (.ok r2, l2, t2) => (.ok (r1 ++ r2), l1 ++ l2, t2)

/-- HDC1000 section of `_read_once` (lines 44-55): activate, sleep 1.8s,
read, unpack, then one shared `now_iso()` timestamp for the temperature
and humidity rows. -/
def humSection (dev : DeviceBehavior) (t : ℕ) : SectRes :=
  match dev.humWrite with
  | .error e => (.error e, [], t)
  | .ok _ =>
      match dev.humRead with
      | .error e => (.error e, [(.writeT "HUM", t + 1), (.sleepT "HUM", t + 2)], t + 2)
      | .ok raw =>
          match unpackLE16x2 raw with
          | .error e =>
              (.error e,
               [(.writeT "HUM", t + 1), (.sleepT "HUM", t + 2), (.readT "HUM", t + 3)],
               t + 3)
          | .ok tr =>
              (.ok [⟨"Temperature", round2 ((tr.1 : ℚ) / 65536 * 165 - 40), "°C", t + 3⟩,
                    ⟨"Humidity", round2 ((maskLow2 tr.2 : ℚ) / 65536 * 100), "%", t + 3⟩],
               [(.writeT "HUM", t + 1), (.sleepT "HUM", t + 2), (.readT "HUM", t + 3)],
               t + 3)

/-- BMP280 section (lines 57-63): activate, sleep 2.0s, read, decode,
`now_iso()` taken at row construction, right after the read. -/
def barSection (dev : DeviceBehavior) (t : ℕ) : SectRes :=
  match dev.barWrite with
  | .error e => (.error e, [], t)
  | .ok _ =>
      match dev.barRead with
      | .error e => (.error e, [(.writeT "BAR", t + 1), (.sleepT "BAR", t + 2)], t + 2)
      | .ok raw =>
          match decodePressureBytes raw with
          | .error e =>
              (.error e,
               [(.writeT "BAR", t + 1), (.sleepT "BAR", t + 2), (.readT "BAR", t + 3)],
               t + 3)
          | .ok p =>
              (.ok [⟨"Pressure", p, "hPa", t + 3⟩],
               [(.writeT "BAR", t + 1), (.sleepT "BAR", t + 2), (.readT "BAR", t + 3)],
               t + 3)

/-- OPT3001 section (lines 65-72): activate, sleep 0.8s, read, decode,
`now_iso()` right after the read. -/
def luxSection (dev : DeviceBehavior) (t : ℕ) : SectRes :=
  match dev.luxWrite with
  | .error e => (.error e, [], t)
  | .ok _ =>
      match dev.luxRead with
      | .error e => (.error e, [(.writeT "LUX", t + 1), (.sleepT "LUX", t + 2)], t + 2)
      | .ok raw =>
          match decodeLux raw with
          | .error e =>
              (.error e,
               [(.writeT "LUX", t + 1), (.sleepT "LUX", t + 2), (.readT "LUX", t + 3)],
               t + 3)
          | .ok v =>
              (.ok [⟨"Illuminance", v, "lx", t + 3⟩],
               [(.writeT "LUX", t + 1), (.sleepT "LUX", t + 2), (.readT "LUX", t + 3)],
               t + 3)

/-- Battery section (line 74): plain read, `now_iso()` right after. -/
def batSection (dev : DeviceBehavior) (t : ℕ) : SectRes :=
  match dev.batRead with
  | .error e => (.error e, [], t)
  | .ok raw =>
      match decodeBattery raw with
      | .error e => (.error e, [(.readT "BAT", t + 1)], t + 1)
      | .ok v => (.ok [⟨"Battery", v, "%", t + 1⟩], [(.readT "BAT", t + 1)], t + 1)

/-- Body of the `try` block of `_read_once`. -/
def readBody (dev : DeviceBehavior) (t : ℕ) : SectRes :=
  seqS (humSection dev t) (fun t1 =>
    seqS (barSection dev t1) (fun t2 =>
      seqS (luxSection dev t2) (fun t3 => batSection dev t3)))

/-- Model of `_read_once` (src/services/sensor.py lines 36-84): connect,
run the body, and in `finally` disconnect; the DataFrame then gains the
AssetID / LocationID columns.  A failed `btle.Peripheral(mac)` call
propagates with nothing acquired and nothing released. -/
def readOnce (mac : String) (dev : DeviceBehavior) :
    Except PyExc Batch × List Ev :=
  match dev.connect with
  | .error e => (.error e, [])
  | .ok _ =>
      match readBody dev 1 with
      | (.error e, l, t) =>
          (.error e, (Tag.connectT, 1) :: l ++ [(Tag.disconnectT, t + 1)])
      | (.ok rows, l, t) =>
          (.ok ⟨pyAssetId mac, locationId, rows⟩,
           (Tag.connectT, 1) :: l ++ [(Tag.disconnectT, t + 1)])

/-- Number of `disconnect` calls recorded in a trace. -/
def disconnectCount (l : List Ev) : ℕ :=
  (l.filter (fun ev => ev.1 = Tag.disconnectT)).length

/-- Is the last completed operation of the trace the disconnect? -/
def lastIsDisconnect (l : List Ev) : Bool :=
  match l.getLast? with
  | some ev => ev.1 = Tag.disconnectT
  | none => false

/-- Retry constant `RETRY_ON_DISCONNECT` (src/services/sensor.py
line 9). -/
def RETRY_ON_DISCONNECT : ℕ := 1

/-- Model of `read_all` (src/services/sensor.py lines 25-34), the
`for attempt in range(RETRY_ON_DISCONNECT + 1)` loop unrolled for
`RETRY_ON_DISCONNECT = 1`: only `btle.BTLEDisconnectError` is caught;
before the retry the code sleeps 1.0 s (returned as the list of pause
durations); after the last attempt the caught exception is re-raised
unchanged.  `devs n` is the device behaviour seen by attempt `n`. -/
def read_all (mac : String) (devs : ℕ → DeviceBehavior) :
    Except PyExc Batch × List ℚ :=
  match (readOnce mac (devs 0)).1 with
  | .ok b => (.ok b, [])
  | .error e =>
      if e.isDisconnect then
        match (readOnce mac (devs 1)).1 with
        | .ok b => (.ok b, [1])
        | .error e2 => (.error e2, [1])
      else
        (.error e, [])

/-! ### Trace facts for the session model -/

theorem disconnectCount_append (l1 l2 : List Ev) :
    disconnectCount (l1 ++ l2) = disconnectCount l1 + disconnectCount l2 := by
  simp [disconnectCount, List.filter_append]

theorem humSection_no_disc (dev : DeviceBehavior) (t : ℕ) :
    disconnectCount (humSection dev t).2.1 = 0 := by
  unfold humSection
  repeat' split
  all_goals rfl

theorem barSection_no_disc (dev : DeviceBehavior) (t : ℕ) :
    disconnectCount (barSection dev t).2.1 = 0 := by
  unfold barSection
  repeat' split
  all_goals rfl

theorem luxSection_no_disc (dev : DeviceBehavior) (t : ℕ) :
    disconnectCount (luxSection dev t).2.1 = 0 := by
  unfold luxSection
  repeat' split
  all_goals rfl

theorem batSection_no_disc (dev : DeviceBehavior) (t : ℕ) :
    disconnectCount (batSection dev t).2.1 = 0 := by
  unfold batSection
  repeat' split
  all_goals rfl

theorem getLast?_snoc (a b : Ev) (l : List Ev) : (a :: l ++ [b]).getLast? = some b := by
  show ((a :: l) ++ [b]).getLast? = some b
  exact List.getLast?_concat _

theorem seqS_no_disc {x : SectRes} {f : ℕ → SectRes}
    (hx : disconnectCount x.2.1 = 0) (hf : ∀ t, disconnectCount (f t).2.1 = 0) :
    disconnectCount (seqS x f).2.1 = 0 := by
  unfold seqS
  rcases x with ⟨res, l, t⟩
  cases res with
  | error e => simpa using hx
  | ok r1 =>
      have hft := hf t
      rcases hEq : f t with ⟨res2, l2, t2⟩
      rw [hEq] at hft
      cases res2 <;> simp_all [disconnectCount, List.filter_append] <;>
        exact ⟨hx, hft⟩

theorem readBody_no_disc (dev : DeviceBehavior) (t : ℕ) :
    disconnectCount (readBody dev t).2.1 = 0 := by
  unfold readBody
  refine seqS_no_disc (humSection_no_disc dev t) (fun t1 => ?_)
  refine seqS_no_disc (barSection_no_disc dev t1) (fun t2 => ?_)
  exact seqS_no_disc (luxSection_no_disc dev t2) (fun t3 => batSection_no_disc dev t3)

/-! ### Claim C4 (connection release) -/

/-- C4: for every device behaviour, `_read_once` records exactly one
disconnect whenever the connection was opened (and none when the
connection attempt itself failed, in which case there is nothing to
release), and the disconnect is the last operation before control
returns — on normal completion, on any raised error, and on
cancellation (a delivered `KeyboardInterrupt` is one of the modelled
step outcomes). -/
theorem C4_release_exactly_once (mac : String) (dev : DeviceBehavior) :
    disconnectCount (readOnce mac dev).2 = (if dev.connect.isOk then 1 else 0)
    ∧ lastIsDisconnect (readOnce mac dev).2 = dev.connect.isOk := by
  unfold readOnce
  cases hc : dev.connect with
  | error e => simp [disconnectCount, lastIsDisconnect, Except.isOk, Except.toBool]
  | ok u =>
      rcases hb : readBody dev 1 with ⟨res, l, t⟩
      have h0 : disconnectCount l = 0 := by
        have h := readBody_no_disc dev 1
        rw [hb] at h
        simpa using h
      have hnil : l.filter (fun ev => decide (ev.1 = Tag.disconnectT)) = [] :=
        List.length_eq_zero.mp h0
      have hcount :
          disconnectCount ((Tag.connectT, 1) :: l ++ [(Tag.disconnectT, t + 1)]) = 1 := by
        simp [disconnectCount, List.filter_append, hnil]
      have hlast :
          lastIsDisconnect ((Tag.connectT, 1) :: l ++ [(Tag.disconnectT, t + 1)]) = true := by
        unfold lastIsDisconnect
        rw [getLast?_snoc]
        rfl
      cases res <;> simp only [Except.isOk, Except.toBool, if_true] <;>
        exact ⟨hcount, hlast⟩

/-! ### Claim C3 (reconnect policy) -/

/-- C3 (amended): the session retries the whole read sequence at most
once per cycle.  A successful first attempt returns its batch with no
pause; a first-attempt disconnect causes exactly one 1.0 s pause and one
full re-run whose outcome is returned as-is — a second disconnect
re-raises that second `BTLEDisconnectError` unchanged (it carries no
attempt count); a disconnect-then-success cycle returns the same result
as a cycle whose first attempt behaves like the retry; non-disconnect
errors are never retried; and only the first two attempt behaviours are
ever consulted. -/
theorem C3_retry_policy (mac : String) (devs devsB : ℕ → DeviceBehavior) :
    (∀ b, (readOnce mac (devs 0)).1 = .ok b → read_all mac devs = (.ok b, []))
    ∧ (∀ e, (readOnce mac (devs 0)).1 = .error e → e.isDisconnect = true →
        read_all mac devs = ((readOnce mac (devs 1)).1, [1]))
    ∧ (∀ e, (readOnce mac (devs 0)).1 = .error e → e.isDisconnect = false →
        read_all mac devs = (.error e, []))
    ∧ (∀ e b, (readOnce mac (devs 0)).1 = .error e → e.isDisconnect = true →
        (readOnce mac (devs 1)).1 = .ok b →
        (read_all mac devs).1 = (read_all mac (fun _ => devs 1)).1)
    ∧ (devs 0 = devsB 0 → devs 1 = devsB 1 → read_all mac devs = read_all mac devsB) := by
  refine ⟨?_, ?_, ?_, ?_, ?_⟩
  · intro b h
    unfold read_all
    rw [h]
  · intro e h hd
    unfold read_all
    rw [h]
    simp only [hd, if_true]
    cases h2 : (readOnce mac (devs 1)).1 <;> rfl
  · intro e h hd
    unfold read_all
    rw [h]
    simp [hd]
  · intro e b h hd h2
    unfold read_all
    rw [h]
    simp [hd, h2]
  · intro h0 h1
    unfold read_all
    rw [h0, h1]

/-- Default MAC address (src/services/sensor.py line 8). -/
def MACdft : String := "98:07:2D:27:F1:86"

/-- Device behaviour of a fully successful cycle: the HDC1000 returns
`0x00 0x63 0x00 0x30`, the BMP280 a 6-byte frame, the OPT3001 the word
`0x1064`, the battery level 90. -/
def okDev : DeviceBehavior :=
  ⟨.ok (), .ok (), .ok [0x00, 0x63, 0x00, 0x30], .ok (),
   .ok [0, 0, 0, 0x40, 0x42, 0x0F], .ok (), .ok [0x10, 0x64], .ok [90]⟩

/-- Device behaviour whose connection attempt raises
`BTLEDisconnectError`. -/
def discAtConnect (m : String) : DeviceBehavior :=
  ⟨.error (.btleDisconnect m), .ok (), .ok [], .ok (), .ok [], .ok (), .ok [], .ok []⟩

/-- Attempt oracle: both attempts disconnect, with distinct messages. -/
def bothDiscDevs : ℕ → DeviceBehavior := fun n =>
  if n = 0 then discAtConnect "attempt one failed" else discAtConnect "attempt two failed"

/-- Attempt oracle: first attempt disconnects, retry succeeds. -/
def firstDiscDevs : ℕ → DeviceBehavior := fun n =>
  if n = 0 then discAtConnect "link down" else okDev

/-- Batch produced by a successful cycle against `okDev`. -/
def okBatch : Batch := (readOnce MACdft okDev).1.toOption.getD ⟨"", "", []⟩

/-- Counterexample for C3 as stated: when both attempts disconnect the
cycle fails with the second attempt's `BTLEDisconnectError` re-raised
unchanged — the identical value a bare single attempt produces — so the
failure carries no attempt count. -/
theorem C3_counterexample :
    read_all MACdft bothDiscDevs
      = (.error (.btleDisconnect "attempt two failed"), [1])
    ∧ (readOnce MACdft (discAtConnect "attempt two failed")).1
      = .error (.btleDisconnect "attempt two failed") :=
  ⟨rfl, rfl⟩

/-- Witness for C3 at a disconnect-then-success oracle. -/
theorem C3_retry_witness :
    read_all MACdft firstDiscDevs = ((readOnce MACdft okDev).1, [1])
    ∧ (read_all MACdft firstDiscDevs).1 = (read_all MACdft (fun _ => okDev)).1 := by
  have h : (readOnce MACdft (firstDiscDevs 0)).1
      = .error (.btleDisconnect "link down") := rfl
  have h2 : (readOnce MACdft (firstDiscDevs 1)).1 = .ok okBatch := rfl
  exact ⟨(C3_retry_policy MACdft firstDiscDevs firstDiscDevs).2.1 _ h rfl,
         (C3_retry_policy MACdft firstDiscDevs firstDiscDevs).2.2.2.1 _ okBatch h rfl h2⟩

/-! ### Success-path decomposition of one cycle (for claim C7) -/

theorem seqS_ok {x : SectRes} {f : ℕ → SectRes} {r : List Row} {l : List Ev} {t : ℕ}
    (h : seqS x f = (.ok r, l, t)) :
    ∃ r1 l1 t1 r2 l2,
      x = (.ok r1, l1, t1) ∧ f t1 = (.ok r2, l2, t) ∧ r = r1 ++ r2 ∧ l = l1 ++ l2 := by
  unfold seqS at h
  split at h
  next e l0 t0 => exact Except.noConfusion (congrArg Prod.fst h)
  next r1 l1 t1 =>
    split at h
    next e l2 t2 heq2 => exact Except.noConfusion (congrArg Prod.fst h)
    next r2 l2 t2 heq2 =>
      simp only [Prod.mk.injEq, Except.ok.injEq] at h
      obtain ⟨hr, hl, ht⟩ := h
      subst ht
      exact ⟨r1, l1, t1, r2, l2, rfl, heq2, hr.symm, hl.symm⟩

theorem humSection_ok {dev : DeviceBehavior} {t : ℕ} {r : List Row} {l : List Ev}
    {u : ℕ} (h : humSection dev t = (.ok r, l, u)) :
    l = [(.writeT "HUM", t + 1), (.sleepT "HUM", t + 2), (.readT "HUM", t + 3)]
    ∧ u = t + 3
    ∧ ∃ v1 v2 : ℚ,
        r = [⟨"Temperature", v1, "°C", t + 3⟩, ⟨"Humidity", v2, "%", t + 3⟩] := by
  unfold humSection at h
  repeat' split at h
  all_goals
    first
    | exact Except.noConfusion (congrArg Prod.fst h)
    | (simp only [Prod.mk.injEq, Except.ok.injEq] at h
       obtain ⟨hrr, hl, ht⟩ := h
       exact ⟨hl.symm, ht.symm, _, _, hrr.symm⟩)

theorem barSection_ok {dev : DeviceBehavior} {t : ℕ} {r : List Row} {l : List Ev}
    {u : ℕ} (h : barSection dev t = (.ok r, l, u)) :
    l = [(.writeT "BAR", t + 1), (.sleepT "BAR", t + 2), (.readT "BAR", t + 3)]
    ∧ u = t + 3
    ∧ ∃ v : ℚ, r = [⟨"Pressure", v, "hPa", t + 3⟩] := by
  unfold barSection at h
  repeat' split at h
  all_goals
    first
    | exact Except.noConfusion (congrArg Prod.fst h)
    | (simp only [Prod.mk.injEq, Except.ok.injEq] at h
       obtain ⟨hrr, hl, ht⟩ := h
       exact ⟨hl.symm, ht.symm, _, hrr.symm⟩)

theorem luxSection_ok {dev : DeviceBehavior} {t : ℕ} {r : List Row} {l : List Ev}
    {u : ℕ} (h : luxSection dev t = (.ok r, l, u)) :
    l = [(.writeT "LUX", t + 1), (.sleepT "LUX", t + 2), (.readT "LUX", t + 3)]
    ∧ u = t + 3
    ∧ ∃ v : ℚ, r = [⟨"Illuminance", v, "lx", t + 3⟩] := by
  unfold luxSection at h
  repeat' split at h
  all_goals
    first
    | exact Except.noConfusion (congrArg Prod.fst h)
    | (simp only [Prod.mk.injEq, Except.ok.injEq] at h
       obtain ⟨hrr, hl, ht⟩ := h
       exact ⟨hl.symm, ht.symm, _, hrr.symm⟩)

theorem batSection_ok {dev : DeviceBehavior} {t : ℕ} {r : List Row} {l : List Ev}
    {u : ℕ} (h : batSection dev t = (.ok r, l, u)) :
    l = [(.readT "BAT", t + 1)]
    ∧ u = t + 1
    ∧ ∃ v : ℚ, r = [⟨"Battery", v, "%", t + 1⟩] := by
  unfold batSection at h
  repeat' split at h
  all_goals
    first
    | exact Except.noConfusion (congrArg Prod.fst h)
    | (simp only [Prod.mk.injEq, Except.ok.injEq] at h
       obtain ⟨hrr, hl, ht⟩ := h
       exact ⟨hl.symm, ht.symm, _, hrr.symm⟩)

/-! ### Claim C7 (timestamp schedule, services/sensor.py session) -/

/-- C7 (amended, services/sensor.py side): every successful cycle of
`_read_once` has the schedule in which temperature and humidity share
the single timestamp taken right after the one shared HDC1000 read
(tick 4), while pressure, illuminance and battery each carry the tick
at which their own read completed (7, 10 and 11) rather than any
cycle-wide timestamp taken before the reads; the trace is the per-sensor
activate/sleep/read sequence followed by the single disconnect. -/
theorem C7_timestamps (mac : String) (dev : DeviceBehavior) (b : Batch)
    (h : (readOnce mac dev).1 = .ok b) :
    b.rows.map Row.dateTime = [4, 4, 7, 10, 11]
    ∧ b.rows.map Row.sensor
        = ["Temperature", "Humidity", "Pressure", "Illuminance", "Battery"]
    ∧ (readOnce mac dev).2 =
        [(Tag.connectT, 1),
         (Tag.writeT "HUM", 2), (Tag.sleepT "HUM", 3), (Tag.readT "HUM", 4),
         (Tag.writeT "BAR", 5), (Tag.sleepT "BAR", 6), (Tag.readT "BAR", 7),
         (Tag.writeT "LUX", 8), (Tag.sleepT "LUX", 9), (Tag.readT "LUX", 10),
         (Tag.readT "BAT", 11), (Tag.disconnectT, 12)] := by
  unfold readOnce at h ⊢
  cases hc : dev.connect
  case error e =>
    rw [hc] at h
    simp at h
  case ok _ =>
    rw [hc] at h
    rcases hb : readBody dev 1 with ⟨res, l, t⟩
    cases res with
    | error e =>
        rw [hb] at h
        simp at h
    | ok rows =>
        rw [hb] at h
        dsimp only at h ⊢
        rw [Except.ok.injEq] at h
        have hbody := hb
        unfold readBody at hbody
        obtain ⟨r1, l1, t1, r234, l234, hhum, hrest, hrows, hl⟩ := seqS_ok hbody
        obtain ⟨r2, l2, t2, r34, l34, hbar, hrest2, hr234, hl234⟩ := seqS_ok hrest
        obtain ⟨r3, l3, t3, r4, l4, hlux, hbat, hr34, hl34⟩ := seqS_ok hrest2
        obtain ⟨hl1, ht1, v1, v2, hr1⟩ := humSection_ok hhum
        obtain ⟨hl2, ht2, v3, hr2⟩ := barSection_ok hbar
        obtain ⟨hl3, ht3, v4, hr3⟩ := luxSection_ok hlux
        obtain ⟨hl4, ht4, v5, hr4⟩ := batSection_ok hbat
        subst ht1 ht2 ht3 ht4
        subst hr1 hr2 hr3 hr4 hl1 hl2 hl3 hl4
        subst hr34 hl34 hr234 hl234 hrows hl
        subst h
        refine ⟨by simp, by simp, by norm_num⟩

/-- Witness for C7: the schedule instantiated at the concrete successful
cycle `okDev`. -/
theorem C7_timestamps_witness :
    okBatch.rows.map Row.dateTime = [4, 4, 7, 10, 11]
    ∧ okBatch.rows.map Row.sensor
        = ["Temperature", "Humidity", "Pressure", "Illuminance", "Battery"]
    ∧ (readOnce MACdft okDev).2 =
        [(Tag.connectT, 1),
         (Tag.writeT "HUM", 2), (Tag.sleepT "HUM", 3), (Tag.readT "HUM", 4),
         (Tag.writeT "BAR", 5), (Tag.sleepT "BAR", 6), (Tag.readT "BAR", 7),
         (Tag.writeT "LUX", 8), (Tag.sleepT "LUX", 9), (Tag.readT "LUX", 10),
         (Tag.readT "BAT", 11), (Tag.disconnectT, 12)] :=
  C7_timestamps MACdft okDev okBatch rfl

/-! ### Registry variant (src/test.py)

`src/test.py` drives the same hardware through a `Sensor` registry of
three descriptors (Temperature, Humidity, Illuminance).  Its
`read_all_sensors` takes ONE cycle-wide timestamp right after
connecting, before any sensor read, and passes it to every
`Sensor.read`. -/

/-- Measurement row of `read_all_sensors`: the dict built by
`Sensor.read` plus the AssetID / LocationID keys added in the loop. -/
structure RowT where
  sensor : String
  value : ℚ
  unit : String
  dateTime : ℕ
  assetID : String
  locationID : String
deriving DecidableEq, Repr

/-- Outcomes of the BLE operations `read_all_sensors` performs, in
registry order. -/
structure DeviceBehaviorT where
  connect : Except PyExc Unit
  tempWrite : Except PyExc Unit
  tempRead : Except PyExc (List ℕ)
  humWrite : Except PyExc Unit
  humRead : Except PyExc (List ℕ)
  luxWrite : Except PyExc Unit
  luxRead : Except PyExc (List ℕ)

/-- Temperature decode lambda of the registry (src/test.py line 53). -/
def decodeTempT (raw : List ℕ) : Except PyExc ℚ :=
  match unpackLE16x2 raw with
  | .error e => .error e
  | .ok tr => .ok (round2 ((tr.1 : ℚ) / 65536 * 165 - 40))

/-- Humidity decode lambda of the registry (src/test.py line 60). -/
def decodeHumT (raw : List ℕ) : Except PyExc ℚ :=
  match unpackLE16x2 raw with
  | .error e => .error e
  | .ok tr => .ok (round2 ((maskLow2 tr.2 : ℚ) / 65536 * 100))

/-- Illuminance decode lambda of the registry (src/test.py lines
67-69): `(r & 0x0FFF) * 0.01 * 2 ** ((r >> 12) & 0xF)` rounded to 2
decimals. -/
def decodeLuxT (raw : List ℕ) : Except PyExc ℚ :=
  match unpackBE16 raw with
  | .error e => .error e
  | .ok r =>
      .ok (round2 (((r &&& 0x0FFF : ℕ) : ℚ) * (1 / 100) * 2 ^ ((r >>> 12) &&& 0xF)))

/-- Model of `Sensor.read` (src/test.py lines 34-44): write the
activation byte, sleep the settle delay, read the data characteristic,
decode, and stamp the row with the CALLER-SUPPLIED timestamp `ts`. -/
def sensorReadT (wr : Except PyExc Unit) (rd : Except PyExc (List ℕ))
    (name unitStr : String) (decode : List ℕ → Except PyExc ℚ) (ts t : ℕ) :
    Except PyExc Row × List Ev × ℕ :=
  match wr with
  | .error e => (.error e, [], t)
  | .ok _ =>
      match rd with
      | .error e => (.error e, [(.writeT name, t + 1), (.sleepT name, t + 2)], t + 2)
      | .ok raw =>
          match decode raw with
          | .error e =>
              (.error e,
               [(.writeT name, t + 1), (.sleepT name, t + 2), (.readT name, t + 3)],
               t + 3)
          | .ok v =>
              (.ok ⟨name, v, unitStr, ts⟩,
               [(.writeT name, t + 1), (.sleepT name, t + 2), (.readT name, t + 3)],
               t + 3)

/-- Python loop body `meas["AssetID"] = assetid; meas["LocationID"] =
LOCATION_ID` (src/test.py lines 80-81). -/
def addIds (m : Row) (a locn : String) : RowT :=
  ⟨m.sensor, m.value, m.unit, m.dateTime, a, locn⟩

/-- Model of `read_all_sensors` (src/test.py lines 73-86): connect, take
ONE `now_iso()` timestamp (tick 1, before any read), loop over the
registry in order (Temperature, Humidity, Illuminance) passing that
single timestamp to each read, and disconnect in `finally`. -/
def read_all_sensors (mac : String) (dev : DeviceBehaviorT) :
    Except PyExc (List RowT) × List Ev :=
  match dev.connect with
  | .error e => (.error e, [])
  | .ok _ =>
      match sensorReadT dev.tempWrite dev.tempRead "Temperature" "CEL" decodeTempT 1 1 with
      | (.error e, l1, t1) =>
          (.error e, (Tag.connectT, 1) :: l1 ++ [(Tag.disconnectT, t1 + 1)])
      | (.ok m1, l1, t1) =>
          match sensorReadT dev.humWrite dev.humRead "Humidity" "P1" decodeHumT 1 t1 with
          | (.error e, l2, t2) =>
              (.error e, (Tag.connectT, 1) :: (l1 ++ l2) ++ [(Tag.disconnectT, t2 + 1)])
          | (.ok m2, l2, t2) =>
              match sensorReadT dev.luxWrite dev.luxRead "Illuminance" "LUX" decodeLuxT 1 t2 with
              | (.error e, l3, t3) =>
                  (.error e,
                   (Tag.connectT, 1) :: (l1 ++ l2 ++ l3) ++ [(Tag.disconnectT, t3 + 1)])
              | (.ok m3, l3, t3) =>
                  (.ok [addIds m1 (pyAssetId mac) locationId,
                        addIds m2 (pyAssetId mac) locationId,
                        addIds m3 (pyAssetId mac) locationId],
                   (Tag.connectT, 1) :: (l1 ++ l2 ++ l3) ++ [(Tag.disconnectT, t3 + 1)])

/-- Fully successful `test.py` cycle: every operation succeeds with
well-formed buffers. -/
def goodDevT : DeviceBehaviorT :=
  ⟨.ok (), .ok (), .ok [0x00, 0x63, 0x00, 0x30], .ok (),
   .ok [0x00, 0x63, 0x00, 0x30], .ok (), .ok [0x10, 0x64]⟩

/-- Counterexample for C7 as stated: in the `test.py` acquisition cycle
every row (including the independently polled Illuminance) carries the
single cycle-wide timestamp taken at tick 1, right after connecting and
before any read, even though the illuminance read only completes at
tick 10. -/
theorem C7_counterexample :
    (read_all_sensors MACdft goodDevT).1.map (fun rs => rs.map RowT.dateTime)
      = .ok [1, 1, 1]
    ∧ (read_all_sensors MACdft goodDevT).2 =
        [(Tag.connectT, 1),
         (Tag.writeT "Temperature", 2), (Tag.sleepT "Temperature", 3),
         (Tag.readT "Temperature", 4),
         (Tag.writeT "Humidity", 5), (Tag.sleepT "Humidity", 6),
         (Tag.readT "Humidity", 7),
         (Tag.writeT "Illuminance", 8), (Tag.sleepT "Illuminance", 9),
         (Tag.readT "Illuminance", 10),
         (Tag.disconnectT, 11)] :=
  ⟨rfl, rfl⟩

/-! ### Claim C10 (asset and location identity) -/

/-- C10: every row of a successful `read_all_sensors` batch carries the
same AssetID — the pure function of the MAC address
`"TI-SensorTag-" ++ (last 6 chars of the MAC with colons removed)` — and
the same LocationID; the services/sensor.py batch carries the same two
identifiers as whole-batch columns.  Being a pure function of the MAC,
the AssetID is identical across any two batches read from the same
MAC. -/
theorem C10_asset_location (mac : String) (dev : DeviceBehaviorT) (rs : List RowT)
    (h : (read_all_sensors mac dev).1 = .ok rs) :
    (∀ r ∈ rs, r.assetID = "TI-SensorTag-" ++ lastSix (stripColons mac)
        ∧ r.locationID = "Labor_ColorSorter_Umgebung")
    ∧ pyAssetId mac = "TI-SensorTag-" ++ lastSix (stripColons mac)
    ∧ (∀ dev2 b2, (readOnce mac dev2).1 = .ok b2 →
        b2.assetID = pyAssetId mac ∧ b2.locationID = locationId) := by
  refine ⟨?_, rfl, ?_⟩
  · unfold read_all_sensors at h
    repeat' split at h
    all_goals simp only [] at h
    all_goals simp at h
    subst h
    intro r hr
    simp only [List.mem_cons, List.not_mem_nil, or_false] at hr
    rcases hr with rfl | rfl | rfl <;> exact ⟨rfl, rfl⟩
  · intro dev2 b2 h2
    unfold readOnce at h2
    repeat' split at h2
    all_goals simp at h2
    subst h2
    exact ⟨rfl, rfl⟩

/-- Rows of the successful concrete `test.py` cycle. -/
def okRowsT : List RowT := (read_all_sensors MACdft goodDevT).1.toOption.getD []

/-- Witness for C10 at the concrete cycle (MAC `98:07:2D:27:F1:86`,
AssetID `TI-SensorTag-27F186`). -/
theorem C10_asset_location_witness :
    (∀ r ∈ okRowsT, r.assetID = "TI-SensorTag-" ++ lastSix (stripColons MACdft)
        ∧ r.locationID = "Labor_ColorSorter_Umgebung")
    ∧ pyAssetId MACdft = "TI-SensorTag-" ++ lastSix (stripColons MACdft)
    ∧ (∀ dev2 b2, (readOnce MACdft dev2).1 = .ok b2 →
        b2.assetID = pyAssetId MACdft ∧ b2.locationID = locationId) :=
  C10_asset_location MACdft goodDevT okRowsT rfl

/-! ### Acquisition loop (src/test.py `main`) -/

/-- Terminal states of the `while True` loop in `main` (src/test.py
lines 104-126), fuel-indexed: `running i` means the fuel ran out with
the loop still alive and about to start cycle `i`. -/
inductive LoopRes where
  | running (nextIdx : ℕ)
  | exited (code : ℕ)
  | graceful
  | raised (e : PyExc)
deriving DecidableEq, Repr

/-- Model of `main`: each iteration runs `read_all_sensors`; on
`btle.BTLEDisconnectError` it prints and calls `sys.exit(1)`; a
`KeyboardInterrupt` is caught by the outer handler (graceful stop); any
other exception propagates out of the loop; on success it publishes,
sleeps and continues with the next cycle.  `devs i` is the device
behaviour of cycle `i`. -/
def mainLoop (mac : String) (devs : ℕ → DeviceBehaviorT) : ℕ → ℕ → LoopRes
  | i, 0 => .running i
  | i, fuel + 1 =>
      match (read_all_sensors mac (devs i)).1 with
      | .ok _ => mainLoop mac devs (i + 1) fuel
      | .error (.btleDisconnect _) => .exited 1
      | .error .keyboardInterrupt => .graceful
      | .error e => .raised e

theorem read_all_sensors_release (mac : String) (dev : DeviceBehaviorT) :
    lastIsDisconnect (read_all_sensors mac dev).2 = dev.connect.isOk := by
  unfold read_all_sensors
  repeat' split
  all_goals simp only [*, Except.isOk, Except.toBool]
  all_goals first
    | rfl
    | (unfold lastIsDisconnect
       rw [getLast?_snoc]
       rfl)

/-- C9 (amended): the loop proceeds to the next cycle only on success;
a cycle failing with `BTLEDisconnectError` terminates the process with
exit code 1; a `DecodeError`-class failure (`struct.error`) propagates
and terminates the loop; only `KeyboardInterrupt` stops it gracefully;
and in every failing cycle whose connection was opened the session has
already released it (the trace ends with the disconnect) before the
loop acts. -/
theorem C9_loop_behaviour (mac : String) (devs : ℕ → DeviceBehaviorT) (i fuel : ℕ) :
    (∀ rs, (read_all_sensors mac (devs i)).1 = .ok rs →
        mainLoop mac devs i (fuel + 1) = mainLoop mac devs (i + 1) fuel)
    ∧ (∀ m, (read_all_sensors mac (devs i)).1 = .error (.btleDisconnect m) →
        mainLoop mac devs i (fuel + 1) = .exited 1)
    ∧ ((read_all_sensors mac (devs i)).1 = .error .keyboardInterrupt →
        mainLoop mac devs i (fuel + 1) = .graceful)
    ∧ (∀ m, (read_all_sensors mac (devs i)).1 = .error (.structError m) →
        mainLoop mac devs i (fuel + 1) = .raised (.structError m))
    ∧ lastIsDisconnect (read_all_sensors mac (devs i)).2 = (devs i).connect.isOk := by
  refine ⟨?_, ?_, ?_, ?_, read_all_sensors_release mac (devs i)⟩
  · intro rs h
    conv_lhs => unfold mainLoop
    rw [h]
  · intro m h
    unfold mainLoop
    rw [h]
  · intro h
    unfold mainLoop
    rw [h]
  · intro m h
    unfold mainLoop
    rw [h]

/-- Cycle of `test.py` whose connection attempt raises
`BTLEDisconnectError`. -/
def discDevT : DeviceBehaviorT :=
  ⟨.error (.btleDisconnect "gone"), .ok (), .ok [], .ok (), .ok [], .ok (), .ok []⟩

/-- Cycle of `test.py` whose temperature buffer has the wrong length, so
the decode raises `struct.error`. -/
def badLenDevT : DeviceBehaviorT :=
  ⟨.ok (), .ok (), .ok [0x00], .ok (), .ok [0x00, 0x63, 0x00, 0x30], .ok (),
   .ok [0x10, 0x64]⟩

/-- Cycle of `test.py` interrupted by the operator during the first read. -/
def kbDevT : DeviceBehaviorT :=
  ⟨.ok (), .ok (), .error .keyboardInterrupt, .ok (), .ok [], .ok (), .ok []⟩

/-- Counterexample for C9 as stated: a single cycle-fatal error DOES
terminate the process — a disconnect makes `main` call `sys.exit(1)`
even though later cycles would succeed, and a decode failure propagates
uncaught; the loop does not proceed to the next scheduled cycle. -/
theorem C9_counterexample :
    mainLoop MACdft (fun n => if n = 0 then discDevT else goodDevT) 0 5 = .exited 1
    ∧ mainLoop MACdft (fun n => if n = 0 then badLenDevT else goodDevT) 0 5
        = .raised (.structError "unpack requires a buffer of 4 bytes") :=
  ⟨rfl, rfl⟩

/-- Witness for C9 across its four scenarios. -/
theorem C9_loop_witness :
    mainLoop MACdft (fun _ => goodDevT) 0 1 = mainLoop MACdft (fun _ => goodDevT) 1 0
    ∧ mainLoop MACdft (fun _ => discDevT) 0 1 = .exited 1
    ∧ mainLoop MACdft (fun _ => kbDevT) 0 1 = .graceful
    ∧ mainLoop MACdft (fun _ => badLenDevT) 0 1
        = .raised (.structError "unpack requires a buffer of 4 bytes")
    ∧ lastIsDisconnect (read_all_sensors MACdft kbDevT).2 = true :=
  ⟨(C9_loop_behaviour MACdft (fun _ => goodDevT) 0 0).1 okRowsT rfl,
   (C9_loop_behaviour MACdft (fun _ => discDevT) 0 0).2.1 "gone" rfl,
   (C9_loop_behaviour MACdft (fun _ => kbDevT) 0 0).2.2.1 rfl,
   (C9_loop_behaviour MACdft (fun _ => badLenDevT) 0 0).2.2.2.1
     "unpack requires a buffer of 4 bytes" rfl,
   (C9_loop_behaviour MACdft (fun _ => kbDevT) 0 0).2.2.2.2⟩

/-! ### Timestamp format (claim C8) -/

/-- Wall-clock instant at second precision, as the fields CPython
renders. -/
structure PyDatetime where
  year : ℕ
  month : ℕ
  day : ℕ
  hour : ℕ
  minute : ℕ
  second : ℕ
deriving DecidableEq, Repr

/-- Two-digit zero padding of a field value. -/
def pad2 (n : ℕ) : String := if n < 10 then "0" ++ toString n else toString n

/-- CPython `datetime.isoformat(timespec="seconds")` for an aware
datetime with `tzinfo=timezone.utc` (as produced by
`datetime.now(timezone.utc)`): date, `T`, time, then the UTC offset
rendered as `+00:00` (4-digit years as printed for 1000..9999). -/
def isoformatSecondsUTC (d : PyDatetime) : String :=
  toString d.year ++ "-" ++ pad2 d.month ++ "-" ++ pad2 d.day ++ "T" ++
  pad2 d.hour ++ ":" ++ pad2 d.minute ++ ":" ++ pad2 d.second ++ "+00:00"

/-- Model of `now_iso` (src/services/sensor.py lines 22-23 and
src/test.py lines 18-19): the aware isoformat string with a literal
`"Z"` appended. -/
def now_iso (d : PyDatetime) : String := isoformatSecondsUTC d ++ "Z"

def startsWithPat : List Char → List Char → Bool
  | [], _ => true
  | _ :: _, [] => false
  | a :: as, b :: bs => a == b && startsWithPat as bs

def containsPat (pat : List Char) : List Char → Bool
  | [] => startsWithPat pat []
  | c :: rest => startsWithPat pat (c :: rest) || containsPat pat rest

/-- C8 is a code bug: the produced timestamp string ends in `Z` but
also still contains the `+00:00` UTC-offset designator right before it
(appending `"Z"` to the isoformat of an aware UTC datetime), so it is
not a valid ISO-8601 timestamp whose only UTC designator is the
trailing `Z`. -/
theorem C8_timestamp_format :
    now_iso ⟨2026, 10, 12, 12, 0, 0⟩ = "2026-10-12T12:00:00+00:00Z"
    ∧ containsPat ("+00:00Z".data) ((now_iso ⟨2026, 10, 12, 12, 0, 0⟩).data) = true
    ∧ (now_iso ⟨2026, 10, 12, 12, 0, 0⟩).data.getLast? = some (Char.ofNat 90) := by
  refine ⟨?_, ?_, ?_⟩ <;> decide

end SensorTag
